import Mathlib

namespace WindbgAgent

/- Shallow embedding of the command-handoff synchronization bridge
   (src/http_server.cpp, src/mcp_server.cpp) and the agent session lifecycle
   manager (src/main.cpp) of the windbg-agent repository. -/

/-! ## Handoff queue data model (src/http_server.hpp / src/mcp_server.hpp) -/

inductive CmdType
  | Exec
  | Ask
deriving DecidableEq, Repr

/-- PendingCommand from http_server.hpp: one unit of work. The private
completion signal (done_mutex/done_cv) is modelled by the `completed` flag
together with the wake-up function `queue_and_wait_finish` below. -/
structure PendingCommand where
  type : CmdType
  input : String
  result : String
  completed : Bool
deriving DecidableEq, Repr

/-- QueueResult from http_server.hpp. -/
structure QueueResult where
  success : Bool
  payload : String
deriving DecidableEq, Repr

/-- The queue-related state of HttpServer: the running flag and the FIFO of
outstanding PendingCommands (front of the list = front of the queue). -/
structure ServerState where
  running : Bool
  pending : List PendingCommand
deriving DecidableEq, Repr

/-- Construction of the PendingCommand in HttpServer::queue_and_wait
(http_server.cpp lines 32-40): type and input set, completed = false. -/
def mkPendingCommand (t : CmdType) (input : String) : PendingCommand :=
  { type := t, input := input, result := "", completed := false }

/-- Entry of HttpServer::queue_and_wait (http_server.cpp lines 27-46): if the
running flag is false, return the not-running error immediately (the returned
Option is `some` = the call returns synchronously without blocking); otherwise
construct a PendingCommand, push it at the tail and proceed to block
(`none` = the call goes on to wait on the completion signal). -/
def queue_and_wait_submit (s : ServerState) (t : CmdType) (input : String) :
    ServerState × Option QueueResult :=
  if !s.running then
    (s, some { success := false, payload := "Error: HTTP server is not running" })
  else
    ({ s with pending := s.pending ++ [mkPendingCommand t input] }, none)

/-- Wake-up of the blocked HttpServer::queue_and_wait call (http_server.cpp
lines 48-57): the wait predicate is `completed || !running`; when it holds the
call unblocks (`some`), returning the stopped error if the item was never
completed and `{true, result}` otherwise. `none` means the call stays blocked. -/
def queue_and_wait_finish (running : Bool) (c : PendingCommand) : Option QueueResult :=
  if c.completed || !running then
    some (if !c.completed then
            { success := false, payload := "Error: HTTP server stopped" }
          else
            { success := true, payload := c.result })
  else
    none

/-- Per-item action of HttpServer::complete_pending_commands (http_server.cpp
lines 233-240): an item not yet completed gets the drain text as result and is
marked completed; an already-completed item is left untouched. In both cases
the item's waiter is then notified. -/
def completeOne (txt : String) (c : PendingCommand) : PendingCommand :=
  if !c.completed then { c with result := txt, completed := true } else c

/-- HttpServer::complete_pending_commands (http_server.cpp lines 219-242):
swap the whole queue out under the lock (the queue is left empty), then
complete-and-notify every detached item. Returns the post-drain queue state
together with the list of detached items after their completion. -/
def complete_pending_commands (txt : String) (s : ServerState) :
    ServerState × List PendingCommand :=
  ({ s with pending := [] }, s.pending.map (completeOne txt))

/-- Body of one executor-loop iteration acting on a dequeued item
(http_server.cpp lines 179-198). The callbacks may fail: a thrown C++
exception is modelled as `Except.error msg`. The if/else-if chain is ported
exactly: an Exec item with a present exec callback runs it, an Ask item with a
present ask callback runs it, anything else stores the no-handler text. A
caught exception stores "Error: " ++ message. In every case the item ends
completed; the function is total, so no exception escapes the loop. -/
def runDequeued (exec_cb ask_cb : Option (String → Except String String))
    (c : PendingCommand) : PendingCommand :=
  let r : Except String String :=
    match c.type, exec_cb, ask_cb with
    | CmdType.Exec, some f, _ => f c.input
    | CmdType.Ask, _, some g => g c.input
    | _, _, _ => Except.ok "Error: No handler for command type"
  match r with
  | Except.ok v => { c with result := v, completed := true }
  | Except.error e => { c with result := "Error: " ++ e, completed := true }

/-! ## HTTP request handlers (src/http_server.cpp lines 79-125) -/

/-- Shape of the JSON response the /exec and /ask handlers produce, with the
HTTP status code. `error_msg` is the "error" field, `payload` is the
"output" (exec) or "response" (ask) field. -/
structure HandlerResponse where
  status : Nat
  success : Bool
  error_msg : Option String
  payload : Option String
deriving DecidableEq, Repr

/-- Observable queue interaction of a handler: `enqueue` records a call to
queue_and_wait with the given command type and input. -/
inductive QEvent
  | enqueue (t : CmdType) (input : String)
deriving DecidableEq, Repr

/-- POST /exec handler (http_server.cpp lines 79-101). `field` is the parsed
"command" member of the JSON body (`none` when the key is absent);
`json.value("command", "")` yields "" for an absent key. An empty command is
answered with status 400 and the missing-command error payload, without
touching the queue. Otherwise queue_and_wait is called (recorded as a QEvent)
and its result `qres` is rendered, with status 503 on failure. -/
def handle_exec (qres : QueueResult) (field : Option String) :
    HandlerResponse × List QEvent :=
  let command := field.getD ""
  if command = "" then
    ({ status := 400, success := false, error_msg := some "missing command",
       payload := none }, [])
  else
    ({ status := if qres.success then 200 else 503, success := qres.success,
       error_msg := none, payload := some qres.payload },
     [QEvent.enqueue CmdType.Exec command])

/-- POST /ask handler (http_server.cpp lines 103-125), same structure with the
"query" member and the missing-query error payload. -/
def handle_ask (qres : QueueResult) (field : Option String) :
    HandlerResponse × List QEvent :=
  let query := field.getD ""
  if query = "" then
    ({ status := 400, success := false, error_msg := some "missing query",
       payload := none }, [])
  else
    ({ status := if qres.success then 200 else 503, success := qres.success,
       error_msg := none, payload := some qres.payload },
     [QEvent.enqueue CmdType.Ask query])

/-! ## Executor loop transition system (HttpServer::wait / MCPServer::wait)

The loop at http_server.cpp lines 159-205 (structurally identical at
mcp_server.cpp lines 205-247) is the single consumer of the queue: it runs on
the one thread that owns the debugging session. We model the whole system as a
labelled transition system: any number of submitting threads may interleave
`submit` steps, while the single executor thread advances through its loop
body (dequeue under the lock, dispatch the callback, write the result, signal
completion). Pending commands are identified by the order of their
submission. `inflight` is the list of commands that have been dequeued but
whose completion has not yet been signalled. -/

/-- Program position of the executor loop within one iteration:
`idle` = at the top of the loop / inside the bounded wait;
`dispatching c` = between dequeuing command `c` and finishing its callback
(the callback invocation is in flight);
`signaling c` = callback done, result written, completion not yet signalled. -/
inductive Phase
  | idle
  | dispatching (c : Nat)
  | signaling (c : Nat)
deriving DecidableEq, Repr

/-- Global state of the queue plus the executor loop. -/
structure LoopState where
  running : Bool
  queue : List Nat
  nextId : Nat
  phase : Phase
  inflight : List Nat
deriving DecidableEq, Repr

/-- Observable transition labels. -/
inductive LoopLabel
  | submit
  | tick
  | deq (c : Nat)
  | fin (c : Nat)
  | sig (c : Nat)
  | halt
deriving DecidableEq, Repr

/-- One step of the system. `submit`: a submitting thread appends a fresh
command at the tail under the queue lock (http_server.cpp lines 42-46); any
number of such threads may interleave. `deq`: the executor, at the top of its
loop, pops exactly one command from the front under the lock (lines 168-177);
this requires `phase = idle` because the single loop thread only reaches the
dequeue after the previous iteration completed. `fin`: the dispatched callback
returns (or throws, captured), the result is written (lines 179-190).
`sig`: `completed` is set and the waiter notified (lines 192-198), after which
the loop returns to the top. `tick`: the 100 ms bounded wait times out with
nothing to do. `halt`: the interrupt predicate fires or stop() runs; the
running flag drops and the queue is drained (lines 161-164, 207-217). -/
inductive LoopStep : LoopState → LoopLabel → LoopState → Prop
  | submit (s : LoopState) (h : s.running = true) :
      LoopStep s LoopLabel.submit
        { s with queue := s.queue ++ [s.nextId], nextId := s.nextId + 1 }
  | deq (s : LoopState) (c : Nat) (rest : List Nat)
      (hph : s.phase = Phase.idle) (hq : s.queue = c :: rest) :
      LoopStep s (LoopLabel.deq c)
        { s with queue := rest, phase := Phase.dispatching c,
                 inflight := s.inflight ++ [c] }
  | fin (s : LoopState) (c : Nat) (hph : s.phase = Phase.dispatching c) :
      LoopStep s (LoopLabel.fin c) { s with phase := Phase.signaling c }
  | sig (s : LoopState) (c : Nat) (hph : s.phase = Phase.signaling c) :
      LoopStep s (LoopLabel.sig c)
        { s with phase := Phase.idle, inflight := s.inflight.erase c }
  | tick (s : LoopState) : LoopStep s LoopLabel.tick s
  | halt (s : LoopState) :
      LoopStep s LoopLabel.halt { s with running := false, queue := [] }

/-- A finite execution: a sequence of labelled steps. -/
inductive LoopTrace : LoopState → List LoopLabel → LoopState → Prop
  | nil (s : LoopState) : LoopTrace s [] s
  | cons {s s' s'' : LoopState} {l : LoopLabel} {ls : List LoopLabel}
      (hstep : LoopStep s l s') (htr : LoopTrace s' ls s'') :
      LoopTrace s (l :: ls) s''

/-- Initial state: server running, queue empty, executor at loop top. -/
def loopInit : LoopState :=
  { running := true, queue := [], nextId := 0, phase := Phase.idle,
    inflight := [] }

/-- The command the executor currently holds, if any. -/
def openOf : Phase → Option Nat
  | Phase.idle => none
  | Phase.dispatching c => some c
  | Phase.signaling c => some c

/-- Structural invariant tying the executor position to the in-flight set:
idle means nothing is in flight; holding command `c` means exactly `c` is in
flight. -/
def phaseInflight (s : LoopState) : Prop :=
  match s.phase with
  | Phase.idle => s.inflight = []
  | Phase.dispatching c => s.inflight = [c]
  | Phase.signaling c => s.inflight = [c]

theorem phaseInflight_step {s s' : LoopState} {l : LoopLabel}
    (hstep : LoopStep s l s') (hinv : phaseInflight s) : phaseInflight s' := by
  cases hstep with
  | submit h => exact hinv
  | deq c rest hph hq =>
      simp only [phaseInflight, hph] at hinv
      simp only [phaseInflight, hinv, List.nil_append]
  | fin c hph =>
      simp only [phaseInflight, hph] at hinv
      simp only [phaseInflight, hinv]
  | sig c hph =>
      simp only [phaseInflight, hph] at hinv
      simp only [phaseInflight, hinv, List.erase_cons_head]
  | tick => exact hinv
  | halt => exact hinv

/-- Serialization checker over a label sequence: scanning left to right while
tracking which command (if any) has been dequeued but not yet signalled, a
second dequeue while one is open is rejected, and a signal must match the open
command. -/
def serCheck : Option Nat → List LoopLabel → Bool
  | _, [] => true
  | o, l :: ls =>
    match o, l with
    | none, LoopLabel.deq c => serCheck (some c) ls
    | some _, LoopLabel.deq _ => false
    | some c, LoopLabel.sig c' => c' == c && serCheck none ls
    | none, LoopLabel.sig _ => false
    | o', _ => serCheck o' ls

theorem serCheck_deq_none (c : Nat) (ls : List LoopLabel) :
    serCheck none (LoopLabel.deq c :: ls) = serCheck (some c) ls := rfl

theorem serCheck_sig_some (c c' : Nat) (ls : List LoopLabel) :
    serCheck (some c) (LoopLabel.sig c' :: ls) = (c' == c && serCheck none ls) := rfl

theorem serCheck_submit (o : Option Nat) (ls : List LoopLabel) :
    serCheck o (LoopLabel.submit :: ls) = serCheck o ls := by cases o <;> rfl

theorem serCheck_tick (o : Option Nat) (ls : List LoopLabel) :
    serCheck o (LoopLabel.tick :: ls) = serCheck o ls := by cases o <;> rfl

theorem serCheck_fin (o : Option Nat) (c : Nat) (ls : List LoopLabel) :
    serCheck o (LoopLabel.fin c :: ls) = serCheck o ls := by cases o <;> rfl

theorem serCheck_halt (o : Option Nat) (ls : List LoopLabel) :
    serCheck o (LoopLabel.halt :: ls) = serCheck o ls := by cases o <;> rfl

theorem serCheck_of_trace {s : LoopState} {ls : List LoopLabel} {s' : LoopState}
    (htr : LoopTrace s ls s') (hinv : phaseInflight s) :
    serCheck (openOf s.phase) ls = true ∧ phaseInflight s' := by
  induction htr with
  | nil s => exact ⟨rfl, hinv⟩
  | cons hstep htr ih =>
      have hinv' := phaseInflight_step hstep hinv
      obtain ⟨hck, hfin⟩ := ih hinv'
      refine ⟨?_, hfin⟩
      cases hstep with
      | submit h =>
          rw [serCheck_submit]; exact hck
      | deq c rest hph hq =>
          rw [hph]
          rw [show openOf Phase.idle = none from rfl, serCheck_deq_none]
          simpa [openOf] using hck
      | fin c hph =>
          rw [hph, serCheck_fin]
          simpa [openOf] using hck
      | sig c hph =>
          rw [hph]
          rw [show openOf (Phase.signaling c) = some c from rfl, serCheck_sig_some]
          simpa [openOf] using hck
      | tick =>
          rw [serCheck_tick]; exact hck
      | halt =>
          rw [serCheck_halt]; exact hck

/-! ## Agent session lifecycle manager (src/main.cpp) -/

/-- libagents::ProviderType as used by the extension (claude, copilot). -/
inductive Provider
  | Claude
  | Copilot
deriving DecidableEq, Repr

/-- libagents::provider_type_name. -/
def provider_type_name : Provider → String
  | Provider.Claude => "claude"
  | Provider.Copilot => "copilot"

/-- Per-provider BYOK record of the Settings (settings.hpp). Only the fields
the session manager reads are relevant. -/
structure ByokConfig where
  enabled : Bool
  api_key : String
  base_url : String
  model : String
  provider_type : String
deriving DecidableEq, Repr

/-- Modelled from the spec: `BYOKSettings::is_usable` lives in settings.hpp,
which is not under src/. Per the spec's data model, "Usability requires
enabled=true and a non-empty key". -/
def ByokConfig.is_usable (b : ByokConfig) : Bool :=
  b.enabled && b.api_key != ""

/-- The Settings fields the session manager reads (settings.hpp is a
collaborator; `byok = none` models `get_byok()` returning null). -/
structure Settings where
  default_provider : Provider
  custom_prompt : String
  response_timeout_ms : Int
  byok : Option ByokConfig
deriving DecidableEq, Repr

/-- The guard `byok && byok->is_usable()` used throughout main.cpp. -/
def byokUsable (settings : Settings) : Bool :=
  match settings.byok with
  | some b => b.is_usable
  | none => false

/-- AgentSession (main.cpp lines 94-108). The agent handle's behavior is
supplied by the environment below, so the handle itself is just presence
(`Option Unit`). `dbg_present` models the `dbg` pointer being non-null. -/
structure AgentSession where
  agent : Option Unit
  provider : Provider
  provider_name : String
  target : String
  session_id : String
  system_prompt : String
  primed : Bool
  initialized : Bool
  host_ready : Bool
  aborted : Bool
  dbg_present : Bool
deriving DecidableEq, Repr

/-- Behavior of the collaborators a single EnsureAgent call interacts with:
whether libagents::create_agent returns a handle, whether agent->initialize()
succeeds, the agent's get_last_error text, the Session Store lookup
GetSessionId (empty string = no id on record), and the effective system prompt
GetFullSystemPrompt(custom_prompt, runtime_ctx) for this call. -/
structure AgentEnv where
  create_ok : Bool
  init_ok : Bool
  last_error : String
  store : String → String → String
  full_prompt : String

/-- Externally observable side effects of the session manager, in order. -/
inductive Event
  | resetSession (shutdown : Bool)
  | createAgent (p : Provider)
  | registerTool
  | setByok
  | setTimeoutMs (ms : Int)
  | storeGet (target provider : String)
  | setSessionId (id : String)
  | clearSession
  | storeSet (target provider id : String)
  | queryHosted (msg : String)
  | execCommand (cmd : String)
deriving DecidableEq, Repr

/-- ResetAgentSession (main.cpp lines 124-138): shut down and discard the
handle when one exists, then clear initialized, host_ready, provider_name,
session_id, system_prompt, target and primed. The `provider` enum, `aborted`
and `dbg` are not touched. The event records whether shutdown() was called. -/
def ResetAgentSession (s : AgentSession) : AgentSession × List Event :=
  ({ s with agent := none, initialized := false, host_ready := false,
            provider_name := "", session_id := "", system_prompt := "",
            target := "", primed := false },
   [Event.resetSession s.agent.isSome])

/-- Result of one EnsureAgent call: final session, success flag, error text,
the `created` out-parameter, and the side-effect trace. -/
structure EnsureResult where
  session : AgentSession
  ok : Bool
  error : String
  created : Bool
  events : List Event
deriving Repr

/-- Tail of EnsureAgent (main.cpp lines 275-309), reached once a handle
exists: recompute the effective prompt and re-prime on change; on a target
switch, reconcile the persisted conversation id (unless BYOK is usable) and
re-prime; finally clear the aborted flag and succeed. -/
def ensureTail (env : AgentEnv) (settings : Settings) (target : String)
    (s : AgentSession) (created : Bool) (evs : List Event) : EnsureResult :=
  let s := if env.full_prompt != s.system_prompt
           then { s with system_prompt := env.full_prompt, primed := false }
           else s
  if s.target != target then
    let s := { s with target := target }
    let pr :=
      if byokUsable settings then (s, ([] : List Event))
      else
        let nid := env.store target s.provider_name
        if nid != s.session_id then
          if s.agent.isSome then
            ({ s with session_id := nid },
             [Event.storeGet target s.provider_name, Event.clearSession]
               ++ (if nid != "" then [Event.setSessionId nid] else []))
          else (s, [Event.storeGet target s.provider_name])
        else (s, [Event.storeGet target s.provider_name])
    { session := { pr.1 with primed := false, aborted := false },
      ok := true, error := "", created := created, events := evs ++ pr.2 }
  else
    { session := { s with aborted := false }, ok := true, error := "",
      created := created, events := evs }

/-- Construction branch of EnsureAgent (main.cpp lines 214-273), entered when
no handle exists: select the configured provider, call create_agent (failing
with "Failed to create agent" if it returns null — note no reset happens on
this path), register the dbg_exec tool, compute the system prompt and clear
primed, apply BYOK and response-timeout overrides, look up the persisted
conversation id unless BYOK is usable, then initialize; on initialization
failure surface the provider diagnostic and fully reset. On success mark the
host configured and the session initialized, and continue with the common
tail. -/
def ensureFresh (env : AgentEnv) (settings : Settings) (target : String)
    (s : AgentSession) : EnsureResult :=
  let p := settings.default_provider
  let s1 := { s with provider := p, provider_name := provider_type_name p }
  let r :=
    if env.create_ok then
      let s2 := { s1 with agent := some (), system_prompt := env.full_prompt,
                          primed := false }
      let ev1 := [Event.registerTool]
        ++ (if byokUsable settings then [Event.setByok] else [])
        ++ (if settings.response_timeout_ms > 0
            then [Event.setTimeoutMs settings.response_timeout_ms] else [])
      let pr :=
        if byokUsable settings then (s2, ev1)
        else
          let sid := env.store target s2.provider_name
          ({ s2 with session_id := sid },
           ev1 ++ [Event.storeGet target s2.provider_name]
               ++ (if sid != "" then [Event.setSessionId sid] else []))
      let s3 := pr.1
      if env.init_ok then
        let s4 := { s3 with host_ready := true, initialized := true }
        ensureTail env settings target s4 true pr.2
      else
        let err := "Failed to initialize: " ++ s3.provider_name
          ++ (if env.last_error != "" then " - " ++ env.last_error else "")
        let rr := ResetAgentSession s3
        { session := rr.1, ok := false, error := err, created := false,
          events := pr.2 ++ rr.2 }
    else
      { session := s1, ok := false, error := "Failed to create agent",
        created := false, events := [] }
  { r with events := Event.createAgent p :: r.events }

/-- EnsureAgent (main.cpp lines 201-310). Sets the dbg pointer, invalidates
the handle when its provider differs from the configured default, constructs
a handle when none exists, and runs the common tail otherwise. -/
def EnsureAgent (env : AgentEnv) (settings : Settings) (target : String)
    (s0 : AgentSession) : EnsureResult :=
  let s := { s0 with dbg_present := true }
  if s.agent.isSome && (s.provider != settings.default_provider) then
    let rs := ResetAgentSession s
    let r := ensureFresh env settings target rs.1
    { r with events := rs.2 ++ r.events }
  else if s.agent.isNone then
    ensureFresh env settings target s
  else
    ensureTail env settings target s false []

/-- Fields the claims call a full session reset: no handle, initialized false,
and provider name, session id, system prompt, target and primed all cleared. -/
def fullyReset (s : AgentSession) : Prop :=
  s.agent = none ∧ s.initialized = false ∧ s.provider_name = ""
    ∧ s.session_id = "" ∧ s.system_prompt = "" ∧ s.target = ""
    ∧ s.primed = false

/-- Behavior of the collaborators during one ask round trip:
agent->query_hosted (a thrown exception is `Except.error msg`) and the
conversation id agent->get_session_id() reports afterwards. -/
structure AskEnv where
  response : Except String String
  new_session_id : String

/-- Result of one ask round trip. -/
structure AskResult where
  session : AgentSession
  response : String
  events : List Event
deriving Repr

/-- One ask round trip (main.cpp lines 1006-1031, and identically the ask
callbacks at lines 775-806 and 903-933): compose the outbound message as the
query alone when primed or when no system prompt is configured, otherwise as
system prompt, separator, query; send it via query_hosted; on success set
primed and, unless BYOK is usable, persist a non-empty changed conversation
id; a thrown exception is caught and rendered as "Error: " ++ message. -/
def askRound (env : AskEnv) (settings : Settings) (target : String)
    (text : String) (s : AgentSession) : AskResult :=
  let message := if s.primed || s.system_prompt == "" then text
                 else s.system_prompt ++ "\n\n---\n\n" ++ text
  match env.response with
  | Except.error e =>
      { session := s, response := "Error: " ++ e,
        events := [Event.queryHosted message] }
  | Except.ok resp =>
      let s := { s with primed := true }
      let pr :=
        if byokUsable settings then (s, ([] : List Event))
        else
          if env.new_session_id != "" && env.new_session_id != s.session_id then
            ({ s with session_id := env.new_session_id },
             [Event.storeSet target (provider_type_name settings.default_provider)
                env.new_session_id])
          else (s, [])
      { session := pr.1, response := resp,
        events := Event.queryHosted message :: pr.2 }

/-- The dbg_exec tool lambda built by BuildDebuggerTool (main.cpp lines
140-157): when the session's aborted flag is set return the "(Aborted)"
sentinel without touching the debugger; when no debugger client is bound
return an error; otherwise run the command through ExecuteCommand (recorded
as an event). -/
def dbg_exec_tool (s : AgentSession) (execCmd : String → String)
    (command : String) : String × List Event :=
  if s.aborted then ("(Aborted)", [])
  else if !s.dbg_present then ("Error: No debugger client available", [])
  else (execCmd command, [Event.execCommand command])

/-- True on Session Store lookup events (GetSessionId calls). -/
def isStoreGet : Event → Bool
  | Event.storeGet _ _ => true
  | _ => false

/-- True on Session Store write events (SetSessionId calls). -/
def isStoreSet : Event → Bool
  | Event.storeSet _ _ _ => true
  | _ => false

/-! ## Helper lemmas about EnsureAgent's branch structure -/

theorem ensureFresh_events_cons (env : AgentEnv) (settings : Settings)
    (target : String) (s : AgentSession) :
    ∃ tl, (ensureFresh env settings target s).events
      = Event.createAgent settings.default_provider :: tl := by
  unfold ensureFresh
  exact ⟨_, rfl⟩

theorem ensureFresh_create_fail (env : AgentEnv) (settings : Settings)
    (target : String) (s : AgentSession) (hc : env.create_ok = false) :
    ensureFresh env settings target s
      = { session := { s with
            provider := settings.default_provider,
            provider_name := provider_type_name settings.default_provider },
          ok := false, error := "Failed to create agent", created := false,
          events := [Event.createAgent settings.default_provider] } := by
  simp [ensureFresh, hc]

theorem ensureFresh_init_fail (env : AgentEnv) (settings : Settings)
    (target : String) (s : AgentSession) (hc : env.create_ok = true)
    (hi : env.init_ok = false) :
    (ensureFresh env settings target s).ok = false
    ∧ (ensureFresh env settings target s).error
        = "Failed to initialize: "
          ++ provider_type_name settings.default_provider
          ++ (if env.last_error != "" then " - " ++ env.last_error else "")
    ∧ fullyReset (ensureFresh env settings target s).session
    ∧ (ensureFresh env settings target s).created = false := by
  simp only [ensureFresh, hc, hi, if_true, Bool.false_eq_true, if_false]
  split_ifs <;> simp [fullyReset, ResetAgentSession]

theorem ensureTail_events_byok (env : AgentEnv) (settings : Settings)
    (target : String) (s : AgentSession) (created : Bool) (evs : List Event)
    (hb : byokUsable settings = true) :
    (ensureTail env settings target s created evs).events = evs := by
  simp only [ensureTail, hb, if_true]
  split <;> simp <;> split <;> rfl

theorem ensureFresh_storeGet_byok (env : AgentEnv) (settings : Settings)
    (target : String) (s : AgentSession) (hb : byokUsable settings = true) :
    (ensureFresh env settings target s).events.filter isStoreGet = [] := by
  simp only [ensureFresh, hb, if_true]
  split
  · split
    · rw [ensureTail_events_byok env settings target _ true _ hb]
      split <;> simp [isStoreGet]
    · split <;> simp [isStoreGet, ResetAgentSession]
  · simp [isStoreGet]

theorem EnsureAgent_no_agent (env : AgentEnv) (settings : Settings)
    (target : String) (s0 : AgentSession) (h : s0.agent = none) :
    EnsureAgent env settings target s0
      = ensureFresh env settings target { s0 with dbg_present := true } := by
  unfold EnsureAgent
  simp [h]

theorem EnsureAgent_switch (env : AgentEnv) (settings : Settings)
    (target : String) (s0 : AgentSession) (h1 : s0.agent = some ())
    (h2 : s0.provider ≠ settings.default_provider) :
    EnsureAgent env settings target s0
      = { ensureFresh env settings target
            (ResetAgentSession { s0 with dbg_present := true }).1 with
          events := Event.resetSession true
            :: (ensureFresh env settings target
                 (ResetAgentSession { s0 with dbg_present := true }).1).events } := by
  unfold EnsureAgent
  simp [h1, h2, ResetAgentSession]

/-! ## Claim theorems -/

/-- Claim C1: the executor loop serializes all dispatches. In every finite
execution of the transition system (any interleaving of any number of
submitting threads with the single consumer), the set of commands that have
been dequeued but not yet signalled never holds more than one element, and
the label sequence passes the serialization check: between the dequeue of a
command and the dequeue of any later command, the completion of the first has
been signalled. -/
theorem C1_executor_serializes (ls : List LoopLabel) (s' : LoopState)
    (htr : LoopTrace loopInit ls s') :
    s'.inflight.length ≤ 1 ∧ serCheck none ls = true := by
  have hinv0 : phaseInflight loopInit := by
    unfold phaseInflight loopInit
    rfl
  have h := serCheck_of_trace htr hinv0
  refine ⟨?_, by simpa [loopInit, openOf] using h.1⟩
  have h2 := h.2
  unfold phaseInflight at h2
  split at h2 <;> simp [h2]

/-- Witness for C1 on the concrete execution submit, dequeue, dispatch
complete, signal. -/
theorem C1_witness :
    ({ running := true, queue := [], nextId := 1, phase := Phase.idle,
       inflight := [] } : LoopState).inflight.length ≤ 1
    ∧ serCheck none [LoopLabel.submit, LoopLabel.deq 0, LoopLabel.fin 0,
        LoopLabel.sig 0] = true :=
  C1_executor_serializes
    [LoopLabel.submit, LoopLabel.deq 0, LoopLabel.fin 0, LoopLabel.sig 0]
    { running := true, queue := [], nextId := 1, phase := Phase.idle,
      inflight := [] }
    (LoopTrace.cons (LoopStep.submit loopInit rfl)
      (LoopTrace.cons
        (LoopStep.deq
          { running := true, queue := [0], nextId := 1,
            phase := Phase.idle, inflight := [] } 0 [] rfl rfl)
        (LoopTrace.cons
          (LoopStep.fin
            { running := true, queue := [], nextId := 1,
              phase := Phase.dispatching 0, inflight := [0] } 0 rfl)
          (LoopTrace.cons
            (LoopStep.sig
              { running := true, queue := [], nextId := 1,
                phase := Phase.signaling 0, inflight := [0] } 0 rfl)
            (LoopTrace.nil _)))))

/-- Claim C5 counterexample: at a session with no handle and an environment
where create_agent fails, EnsureAgent returns failure but the session is NOT
fully reset — the provider name has just been assigned ("claude") and is not
cleared, because the create-failure path returns without calling
ResetAgentSession (main.cpp lines 218-225). -/
theorem C5_counterexample :
    (EnsureAgent
        { create_ok := false, init_ok := true, last_error := "",
          store := fun _ _ => "", full_prompt := "P" }
        { default_provider := Provider.Claude, custom_prompt := "",
          response_timeout_ms := 0, byok := none } "calc.exe"
        { agent := none, provider := Provider.Copilot, provider_name := "",
          target := "", session_id := "", system_prompt := "", primed := false,
          initialized := false, host_ready := false, aborted := false,
          dbg_present := false }).ok = false
    ∧ (EnsureAgent
        { create_ok := false, init_ok := true, last_error := "",
          store := fun _ _ => "", full_prompt := "P" }
        { default_provider := Provider.Claude, custom_prompt := "",
          response_timeout_ms := 0, byok := none } "calc.exe"
        { agent := none, provider := Provider.Copilot, provider_name := "",
          target := "", session_id := "", system_prompt := "", primed := false,
          initialized := false, host_ready := false, aborted := false,
          dbg_present := false }).session.provider_name = "claude"
    ∧ ¬ fullyReset (EnsureAgent
        { create_ok := false, init_ok := true, last_error := "",
          store := fun _ _ => "", full_prompt := "P" }
        { default_provider := Provider.Claude, custom_prompt := "",
          response_timeout_ms := 0, byok := none } "calc.exe"
        { agent := none, provider := Provider.Copilot, provider_name := "",
          target := "", session_id := "", system_prompt := "", primed := false,
          initialized := false, host_ready := false, aborted := false,
          dbg_present := false }).session := by
  refine ⟨rfl, rfl, ?_⟩
  intro hfr
  have hname := hfr.2.2.1
  rw [show (EnsureAgent
        { create_ok := false, init_ok := true, last_error := "",
          store := fun _ _ => "", full_prompt := "P" }
        { default_provider := Provider.Claude, custom_prompt := "",
          response_timeout_ms := 0, byok := none } "calc.exe"
        { agent := none, provider := Provider.Copilot, provider_name := "",
          target := "", session_id := "", system_prompt := "", primed := false,
          initialized := false, host_ready := false, aborted := false,
          dbg_present := false }).session.provider_name = "claude" from rfl]
    at hname
  exact absurd hname (by decide)

/-- Claim C5 amended: whenever EnsureAgent takes the construction path (no
handle exists, or the provider switch just invalidated it), a failure of
initialize() surfaces an error containing the provider diagnostic when
available and fully resets the session; a failure of create_agent surfaces
"Failed to create agent" and leaves no handle, but performs no reset: the
provider name remains set to the configured provider's name. -/
theorem C5_amended_reset_on_failure (env : AgentEnv) (settings : Settings)
    (target : String) (s0 : AgentSession)
    (h : s0.agent = none ∨ s0.provider ≠ settings.default_provider) :
    (env.create_ok = false →
      (EnsureAgent env settings target s0).ok = false
      ∧ (EnsureAgent env settings target s0).error = "Failed to create agent"
      ∧ (EnsureAgent env settings target s0).session.agent = none
      ∧ (EnsureAgent env settings target s0).session.provider_name
          = provider_type_name settings.default_provider)
    ∧ (env.create_ok = true → env.init_ok = false →
      (EnsureAgent env settings target s0).ok = false
      ∧ (EnsureAgent env settings target s0).error
          = "Failed to initialize: "
            ++ provider_type_name settings.default_provider
            ++ (if env.last_error != "" then " - " ++ env.last_error else "")
      ∧ fullyReset (EnsureAgent env settings target s0).session) := by
  obtain ⟨s', hs', hok, herr, hsess⟩ :
      ∃ s', s'.agent = none
        ∧ (EnsureAgent env settings target s0).ok
            = (ensureFresh env settings target s').ok
        ∧ (EnsureAgent env settings target s0).error
            = (ensureFresh env settings target s').error
        ∧ (EnsureAgent env settings target s0).session
            = (ensureFresh env settings target s').session := by
    rcases h with hnone | hneq
    · refine ⟨{ s0 with dbg_present := true }, hnone, ?_, ?_, ?_⟩ <;>
        rw [EnsureAgent_no_agent env settings target s0 hnone]
    · cases hag : s0.agent with
      | none =>
          refine ⟨{ s0 with dbg_present := true }, hag, ?_, ?_, ?_⟩ <;>
            rw [EnsureAgent_no_agent env settings target s0 hag]
      | some u =>
          cases u
          refine ⟨(ResetAgentSession { s0 with dbg_present := true }).1, rfl,
            ?_, ?_, ?_⟩ <;>
            rw [EnsureAgent_switch env settings target s0 hag hneq]
  rw [hok, herr, hsess]
  constructor
  · intro hc
    rw [ensureFresh_create_fail env settings target s' hc]
    exact ⟨rfl, rfl, hs', rfl⟩
  · intro hc hi
    obtain ⟨h1, h2, h3, _⟩ := ensureFresh_init_fail env settings target s' hc hi
    exact ⟨h1, h2, h3⟩

/-- Witness for C5 amended at a fresh session whose provider initialization
fails with a diagnostic. -/
theorem C5_amended_witness :
    (EnsureAgent
        { create_ok := true, init_ok := false, last_error := "token expired",
          store := fun _ _ => "", full_prompt := "P" }
        { default_provider := Provider.Claude, custom_prompt := "",
          response_timeout_ms := 0, byok := none } "calc.exe"
        { agent := none, provider := Provider.Copilot, provider_name := "",
          target := "", session_id := "", system_prompt := "", primed := false,
          initialized := false, host_ready := false, aborted := false,
          dbg_present := false }).ok = false
    ∧ (EnsureAgent
        { create_ok := true, init_ok := false, last_error := "token expired",
          store := fun _ _ => "", full_prompt := "P" }
        { default_provider := Provider.Claude, custom_prompt := "",
          response_timeout_ms := 0, byok := none } "calc.exe"
        { agent := none, provider := Provider.Copilot, provider_name := "",
          target := "", session_id := "", system_prompt := "", primed := false,
          initialized := false, host_ready := false, aborted := false,
          dbg_present := false }).error
        = "Failed to initialize: " ++ provider_type_name Provider.Claude
          ++ (if ("token expired" != "") then " - " ++ "token expired" else "")
    ∧ fullyReset (EnsureAgent
        { create_ok := true, init_ok := false, last_error := "token expired",
          store := fun _ _ => "", full_prompt := "P" }
        { default_provider := Provider.Claude, custom_prompt := "",
          response_timeout_ms := 0, byok := none } "calc.exe"
        { agent := none, provider := Provider.Copilot, provider_name := "",
          target := "", session_id := "", system_prompt := "", primed := false,
          initialized := false, host_ready := false, aborted := false,
          dbg_present := false }).session := by
  have h := C5_amended_reset_on_failure
    { create_ok := true, init_ok := false, last_error := "token expired",
      store := fun _ _ => "", full_prompt := "P" }
    { default_provider := Provider.Claude, custom_prompt := "",
      response_timeout_ms := 0, byok := none } "calc.exe"
    { agent := none, provider := Provider.Copilot, provider_name := "",
      target := "", session_id := "", system_prompt := "", primed := false,
      initialized := false, host_ready := false, aborted := false,
      dbg_present := false }
    (Or.inl rfl)
  exact h.2 rfl rfl

/-- Claim C6: when a handle exists and its provider differs from the
configured default, EnsureAgent first performs the full reset (shutting down
the handle; the reset state has no agent and initialized = false) and only
then constructs a handle for the new provider — in the event trace the reset
strictly precedes the construction. -/
theorem C6_provider_switch_resets_before_create (env : AgentEnv)
    (settings : Settings) (target : String) (s0 : AgentSession)
    (h1 : s0.agent = some ()) (h2 : s0.provider ≠ settings.default_provider) :
    (∃ tl, (EnsureAgent env settings target s0).events
        = Event.resetSession true
          :: Event.createAgent settings.default_provider :: tl)
    ∧ (ResetAgentSession { s0 with dbg_present := true }).1.agent = none
    ∧ (ResetAgentSession { s0 with dbg_present := true }).1.initialized
        = false := by
  obtain ⟨tl, htl⟩ := ensureFresh_events_cons env settings target
    (ResetAgentSession { s0 with dbg_present := true }).1
  refine ⟨⟨tl, ?_⟩, rfl, rfl⟩
  rw [EnsureAgent_switch env settings target s0 h1 h2]
  dsimp only
  rw [htl]

/-- Witness for C6: a copilot handle exists while the configured provider is
claude. -/
theorem C6_witness :
    (∃ tl, (EnsureAgent
        { create_ok := true, init_ok := true, last_error := "",
          store := fun _ _ => "", full_prompt := "P" }
        { default_provider := Provider.Claude, custom_prompt := "",
          response_timeout_ms := 0, byok := none } "calc.exe"
        { agent := some (), provider := Provider.Copilot,
          provider_name := "copilot", target := "calc.exe", session_id := "",
          system_prompt := "P", primed := true, initialized := true,
          host_ready := true, aborted := false, dbg_present := true }).events
        = Event.resetSession true :: Event.createAgent Provider.Claude :: tl)
    ∧ (ResetAgentSession
        { agent := some (), provider := Provider.Copilot,
          provider_name := "copilot", target := "calc.exe", session_id := "",
          system_prompt := "P", primed := true, initialized := true,
          host_ready := true, aborted := false,
          dbg_present := true }).1.agent = none
    ∧ (ResetAgentSession
        { agent := some (), provider := Provider.Copilot,
          provider_name := "copilot", target := "calc.exe", session_id := "",
          system_prompt := "P", primed := true, initialized := true,
          host_ready := true, aborted := false,
          dbg_present := true }).1.initialized = false := by
  have h := C6_provider_switch_resets_before_create
    { create_ok := true, init_ok := true, last_error := "",
      store := fun _ _ => "", full_prompt := "P" }
    { default_provider := Provider.Claude, custom_prompt := "",
      response_timeout_ms := 0, byok := none } "calc.exe"
    { agent := some (), provider := Provider.Copilot,
      provider_name := "copilot", target := "calc.exe", session_id := "",
      system_prompt := "P", primed := true, initialized := true,
      host_ready := true, aborted := false, dbg_present := true }
    rfl (by decide)
  exact ⟨h.1, rfl, rfl⟩

/-- Claim C7: when the BYOK configuration is usable, EnsureAgent performs no
Session Store lookup (no storeGet event, for any persisted contents of the
store) and the ask path performs no Session Store write (no storeSet event),
even when a conversation id is on record. -/
theorem C7_byok_suppresses_store (env : AgentEnv) (settings : Settings)
    (target : String) (s0 : AgentSession) (aenv : AskEnv) (text : String)
    (s1 : AgentSession) (hb : byokUsable settings = true) :
    (EnsureAgent env settings target s0).events.filter isStoreGet = []
    ∧ (askRound aenv settings target text s1).events.filter isStoreSet = [] := by
  constructor
  · simp only [EnsureAgent]
    split
    · simp [ResetAgentSession, isStoreGet, List.filter_append,
        ensureFresh_storeGet_byok env settings target _ hb]
    · split
      · exact ensureFresh_storeGet_byok env settings target _ hb
      · rw [ensureTail_events_byok env settings target _ false [] hb]
        rfl
  · cases henv : aenv.response <;> simp [askRound, henv, hb, isStoreSet]

/-- Witness for C7 with a usable BYOK record and a persisted id on record. -/
theorem C7_witness :
    (EnsureAgent
        { create_ok := true, init_ok := true, last_error := "",
          store := fun _ _ => "persisted-id", full_prompt := "P" }
        { default_provider := Provider.Claude, custom_prompt := "",
          response_timeout_ms := 0,
          byok := some { enabled := true, api_key := "sk-live", base_url := "",
                         model := "", provider_type := "" } } "calc.exe"
        { agent := none, provider := Provider.Copilot, provider_name := "",
          target := "", session_id := "", system_prompt := "", primed := false,
          initialized := false, host_ready := false, aborted := false,
          dbg_present := false }).events.filter isStoreGet = []
    ∧ (askRound { response := Except.ok "fine", new_session_id := "id-9" }
        { default_provider := Provider.Claude, custom_prompt := "",
          response_timeout_ms := 0,
          byok := some { enabled := true, api_key := "sk-live", base_url := "",
                         model := "", provider_type := "" } } "calc.exe" "hi"
        { agent := some (), provider := Provider.Claude,
          provider_name := "claude", target := "calc.exe", session_id := "",
          system_prompt := "P", primed := true, initialized := true,
          host_ready := true, aborted := false,
          dbg_present := true }).events.filter isStoreSet = [] :=
  C7_byok_suppresses_store
    { create_ok := true, init_ok := true, last_error := "",
      store := fun _ _ => "persisted-id", full_prompt := "P" }
    { default_provider := Provider.Claude, custom_prompt := "",
      response_timeout_ms := 0,
      byok := some { enabled := true, api_key := "sk-live", base_url := "",
                     model := "", provider_type := "" } } "calc.exe"
    { agent := none, provider := Provider.Copilot, provider_name := "",
      target := "", session_id := "", system_prompt := "", primed := false,
      initialized := false, host_ready := false, aborted := false,
      dbg_present := false }
    { response := Except.ok "fine", new_session_id := "id-9" } "hi"
    { agent := some (), provider := Provider.Claude,
      provider_name := "claude", target := "calc.exe", session_id := "",
      system_prompt := "P", primed := true, initialized := true,
      host_ready := true, aborted := false, dbg_present := true }
    (by decide)

/-- Claim C2: complete_pending_commands(error_text) atomically detaches the
entire queue contents leaving the queue empty; every detached item not yet
completed gets error_text as result and completed = true and its waiter is
signalled, while already-completed items keep their result; consequently a
submitter still blocked on a never-dequeued item unblocks through the wait
predicate and receives the drain text (the standard stopped error) as its
payload instead of hanging. -/
theorem C2_drain_completes_all (txt : String) (s : ServerState) :
    (complete_pending_commands txt s).1.pending = []
    ∧ (complete_pending_commands txt s).2 = s.pending.map (completeOne txt)
    ∧ (∀ c ∈ s.pending, c.completed = false →
        (completeOne txt c).result = txt ∧ (completeOne txt c).completed = true)
    ∧ (∀ c ∈ s.pending, c.completed = true →
        (completeOne txt c).result = c.result
          ∧ (completeOne txt c).completed = true)
    ∧ (∀ (r : Bool), ∀ c ∈ s.pending, c.completed = false →
        queue_and_wait_finish r (completeOne txt c)
          = some { success := true, payload := txt }) := by
  refine ⟨rfl, rfl, ?_, ?_, ?_⟩
  · intro c _ hfalse
    simp [completeOne, hfalse]
  · intro c _ htrue
    simp [completeOne, htrue]
  · intro r c _ hfalse
    simp [completeOne, hfalse, queue_and_wait_finish]

/-- Witness for C2 at a concrete drained queue of one uncompleted item. -/
theorem C2_drain_witness :
    (complete_pending_commands "Error: HTTP server stopped"
        { running := false,
          pending := [{ type := CmdType.Exec, input := "kb", result := "",
                        completed := false }] }).1.pending = []
    ∧ queue_and_wait_finish true
        (completeOne "Error: HTTP server stopped"
          { type := CmdType.Exec, input := "kb", result := "",
            completed := false })
      = some { success := true, payload := "Error: HTTP server stopped" } :=
  ⟨(C2_drain_completes_all "Error: HTTP server stopped"
      { running := false,
        pending := [{ type := CmdType.Exec, input := "kb", result := "",
                      completed := false }] }).1,
   (C2_drain_completes_all "Error: HTTP server stopped"
      { running := false,
        pending := [{ type := CmdType.Exec, input := "kb", result := "",
                      completed := false }] }).2.2.2.2 true
      { type := CmdType.Exec, input := "kb", result := "", completed := false }
      (by simp) rfl⟩

/-- Claim C3: when the running flag is false, queue_and_wait returns
immediately and synchronously with success = false and the standard
not-running error text, leaving the queue untouched (no PendingCommand is
enqueued; the returned `some` means the call never reaches the blocking
wait). -/
theorem C3_reject_when_not_running (s : ServerState) (t : CmdType)
    (input : String) (h : s.running = false) :
    queue_and_wait_submit s t input
      = (s, some { success := false,
                   payload := "Error: HTTP server is not running" }) := by
  simp [queue_and_wait_submit, h]

/-- Witness for C3 on a stopped server. -/
theorem C3_witness :
    queue_and_wait_submit { running := false, pending := [] } CmdType.Exec "kb"
      = ({ running := false, pending := [] },
         some { success := false,
                payload := "Error: HTTP server is not running" }) :=
  C3_reject_when_not_running { running := false, pending := [] }
    CmdType.Exec "kb" rfl

/-- Claim C4: when the dispatched handler of a dequeued item throws, the loop
body stores "Error: " followed by the exception message as the item's result
and marks it completed; runDequeued is a total function, so the exception
never propagates out of the loop and the next iteration proceeds. -/
theorem C4_executor_captures_fault
    (exec_cb ask_cb : Option (String → Except String String))
    (c : PendingCommand) (e : String)
    (h : (∃ f, exec_cb = some f ∧ c.type = CmdType.Exec
            ∧ f c.input = Except.error e)
       ∨ (∃ g, ask_cb = some g ∧ c.type = CmdType.Ask
            ∧ g c.input = Except.error e)) :
    (runDequeued exec_cb ask_cb c).result = "Error: " ++ e
    ∧ (runDequeued exec_cb ask_cb c).completed = true := by
  obtain ⟨ty, inp, res, comp⟩ := c
  rcases h with ⟨f, hf, ht, he⟩ | ⟨g, hg, ht, he⟩
  · subst hf
    simp only at ht
    subst ht
    simp only at he
    simp [runDequeued, he]
  · subst hg
    simp only at ht
    subst ht
    simp only at he
    cases hx : exec_cb <;> simp [runDequeued, he, hx]

/-- Witness for C4 with a throwing exec callback. -/
theorem C4_witness :
    (runDequeued (some fun _ => Except.error "access violation") none
        { type := CmdType.Exec, input := "kb", result := "",
          completed := false }).result = "Error: " ++ "access violation"
    ∧ (runDequeued (some fun _ => Except.error "access violation") none
        { type := CmdType.Exec, input := "kb", result := "",
          completed := false }).completed = true :=
  C4_executor_captures_fault (some fun _ => Except.error "access violation")
    none
    { type := CmdType.Exec, input := "kb", result := "", completed := false }
    "access violation"
    (Or.inl ⟨fun _ => Except.error "access violation", rfl, rfl, rfl⟩)

/-- Claim C8: the outbound ask message is the query text alone when the
session is primed or the system prompt is empty, and otherwise the system
prompt, the separator, and the query; after a successful round trip the
primed flag is true. -/
theorem C8_ask_message_composition (env : AskEnv) (settings : Settings)
    (target text : String) (s : AgentSession) :
    (askRound env settings target text s).events.head?
      = some (Event.queryHosted
          (if s.primed || s.system_prompt == "" then text
           else s.system_prompt ++ "\n\n---\n\n" ++ text))
    ∧ (∀ resp, env.response = Except.ok resp →
        (askRound env settings target text s).session.primed = true) := by
  constructor
  · cases henv : env.response <;> simp [askRound, henv]
  · intro resp hresp
    simp only [askRound, hresp]
    split
    · simp
    · split <;> simp

/-- Witness for C8 on a successful round trip from an unprimed session. -/
theorem C8_witness :
    (askRound { response := Except.ok "NullDeref", new_session_id := "" }
        { default_provider := Provider.Copilot, custom_prompt := "",
          response_timeout_ms := 0, byok := none } "calc.exe" "what crashed?"
        { agent := some (), provider := Provider.Copilot,
          provider_name := "copilot", target := "calc.exe", session_id := "",
          system_prompt := "SYS", primed := false, initialized := true,
          host_ready := true, aborted := false,
          dbg_present := true }).events.head?
      = some (Event.queryHosted
          (if (false : Bool) || ("SYS" == "") then "what crashed?"
           else "SYS" ++ "\n\n---\n\n" ++ "what crashed?"))
    ∧ (askRound { response := Except.ok "NullDeref", new_session_id := "" }
        { default_provider := Provider.Copilot, custom_prompt := "",
          response_timeout_ms := 0, byok := none } "calc.exe" "what crashed?"
        { agent := some (), provider := Provider.Copilot,
          provider_name := "copilot", target := "calc.exe", session_id := "",
          system_prompt := "SYS", primed := false, initialized := true,
          host_ready := true, aborted := false,
          dbg_present := true }).session.primed = true := by
  have h := C8_ask_message_composition
    { response := Except.ok "NullDeref", new_session_id := "" }
    { default_provider := Provider.Copilot, custom_prompt := "",
      response_timeout_ms := 0, byok := none } "calc.exe" "what crashed?"
    { agent := some (), provider := Provider.Copilot,
      provider_name := "copilot", target := "calc.exe", session_id := "",
      system_prompt := "SYS", primed := false, initialized := true,
      host_ready := true, aborted := false, dbg_present := true }
  exact ⟨h.1, h.2 "NullDeref" rfl⟩

/-- Claim C9: when the session's aborted flag is set, the dbg_exec tool
returns the "(Aborted)" sentinel and its event list is empty: the debugger's
ExecuteCommand is never invoked. -/
theorem C9_aborted_short_circuits (s : AgentSession)
    (execCmd : String → String) (command : String) (h : s.aborted = true) :
    dbg_exec_tool s execCmd command = ("(Aborted)", []) := by
  simp [dbg_exec_tool, h]

/-- Witness for C9 on an aborted session. -/
theorem C9_witness :
    dbg_exec_tool
      { agent := some (), provider := Provider.Copilot,
        provider_name := "copilot", target := "calc.exe", session_id := "",
        system_prompt := "", primed := true, initialized := true,
        host_ready := true, aborted := true, dbg_present := true }
      (fun _ => "eax=00000000") "r" = ("(Aborted)", []) :=
  C9_aborted_short_circuits
    { agent := some (), provider := Provider.Copilot,
      provider_name := "copilot", target := "calc.exe", session_id := "",
      system_prompt := "", primed := true, initialized := true,
      host_ready := true, aborted := true, dbg_present := true }
    (fun _ => "eax=00000000") "r" rfl

/-- Claim C10: an /exec or /ask request whose body lacks the required string
field or supplies it empty is answered with status 400 and an error payload
with success = false, and the handler returns without calling queue_and_wait
(its queue-event list is empty, so no PendingCommand is constructed and the
queue is untouched). -/
theorem C10_handlers_reject_missing_field (qres : QueueResult)
    (field : Option String) (h : field = none ∨ field = some "") :
    handle_exec qres field
      = ({ status := 400, success := false, error_msg := some "missing command",
           payload := none }, [])
    ∧ handle_ask qres field
      = ({ status := 400, success := false, error_msg := some "missing query",
           payload := none }, []) := by
  rcases h with h | h <;> subst h <;>
    exact ⟨by simp [handle_exec], by simp [handle_ask]⟩

/-- Witness for C10 on a body with no command/query member. -/
theorem C10_witness :
    handle_exec { success := true, payload := "out" } none
      = ({ status := 400, success := false, error_msg := some "missing command",
           payload := none }, [])
    ∧ handle_ask { success := true, payload := "out" } none
      = ({ status := 400, success := false, error_msg := some "missing query",
           payload := none }, []) :=
  C10_handlers_reject_missing_field { success := true, payload := "out" }
    none (Or.inl rfl)

end WindbgAgent
